import Mathlib

/-!
Verification development for the agent-orchestration core of a marketing
SaaS backend: `AgentOrchestrator` (task creation, status updates, approval
gating, queue dispatch) and `WorkflowEngine` (sequential step processing
with dependency checks, failure policy, resume).

The TypeScript services are shallowly embedded as pure Lean functions:
database writes become record updates, `Date.now()` timestamps become
explicit `Nat` parameters, and the asynchronous task executor becomes an
explicit outcome argument.  Every definition mirrors the corresponding
source function line by line.
-/

namespace Orchestrator

/-- Task status values from the `AgentTask` interface
(`'pending' | 'running' | 'completed' | 'failed' | 'cancelled'`). -/
inductive TaskStatus where
  | pending
  | running
  | completed
  | failed
  | cancelled
deriving DecidableEq, Repr

/-- The nine agent types of the `AgentTask.agent_type` union. -/
inductive AgentType where
  | branding
  | content
  | campaign
  | email
  | ad
  | influencer
  | affiliate
  | seo
  | analytics
deriving DecidableEq, Repr

/-- Embedding of the `AgentTask` interface.  Timestamps are abstract `Nat`
instants; optional TypeScript fields (`started_at?`, `approved_by?`, ...)
become `Option`s; the opaque `payload`/`result` values are strings. -/
structure AgentTask where
  id : String
  tenant_id : String
  user_id : String
  agent_type : AgentType
  task_type : String
  payload : String
  priority : Int
  status : TaskStatus
  created_at : Nat
  started_at : Option Nat := none
  completed_at : Option Nat := none
  error : Option String := none
  result : Option String := none
  approval_required : Bool
  approved_by : Option String := none
  approved_at : Option Nat := none
deriving DecidableEq, Repr

/-- The caller-supplied part of a task
(`Omit<AgentTask, 'id' | 'created_at' | 'status'>` restricted to the
fields `createTask` actually persists). -/
structure CreateTaskSpec where
  tenant_id : String
  user_id : String
  agent_type : AgentType
  task_type : String
  payload : String
  priority : Int
  approval_required : Bool
deriving DecidableEq, Repr

/-- The job placed on the agent queue by `createTask`
(`this.agentQueue.add(name, data, opts)`): the job data fields together
with the `priority` and `delay` options. -/
structure EnqueuedJob where
  taskId : String
  tenant_id : String
  user_id : String
  agent_type : AgentType
  task_type : String
  payload : String
  priority : Int
  delay : Int
deriving DecidableEq, Repr

/-- Embedding of `AgentOrchestrator.createTask`: builds the full task record with the
generated id, `created_at := now` and status `pending`, and enqueues a job
whose options are `priority: task.priority` and
`delay: task.priority === 0 ? 0 : task.priority * 1000`.
The enqueue happens unconditionally — `approval_required` is stored on the
task but never consulted before queueing. -/
def createTask (spec : CreateTaskSpec) (taskId : String) (now : Nat) :
    AgentTask × EnqueuedJob :=
  ({ id := taskId
     tenant_id := spec.tenant_id
     user_id := spec.user_id
     agent_type := spec.agent_type
     task_type := spec.task_type
     payload := spec.payload
     priority := spec.priority
     status := .pending
     created_at := now
     approval_required := spec.approval_required },
   { taskId := taskId
     tenant_id := spec.tenant_id
     user_id := spec.user_id
     agent_type := spec.agent_type
     task_type := spec.task_type
     payload := spec.payload
     priority := spec.priority
     delay := if spec.priority = 0 then 0 else spec.priority * 1000 })

/-- Embedding of `AgentOrchestrator.updateTaskStatus`: builds `updateData = { status }`,
adds `started_at` when the new status is `running`, adds `completed_at`
(and `result`/`error` when truthy) when it is `completed` or `failed`, and
applies the update.  No other field changes; in particular there is no
guard on the task's current status. -/
def updateTaskStatus (t : AgentTask) (status : TaskStatus)
    (result : Option String) (error : Option String) (now : Nat) : AgentTask :=
  match status with
  | .running => { t with status := status, started_at := some now }
  | .completed =>
      { t with status := status
               completed_at := some now
               result := if result.isSome then result else t.result
               error := if error.isSome then error else t.error }
  | .failed =>
      { t with status := status
               completed_at := some now
               result := if result.isSome then result else t.result
               error := if error.isSome then error else t.error }
  | _ => { t with status := status }

/-- Outcome of the per-agent-type handler invoked by `processAgentTask`
(the `switch (agent_type)` dispatch): a result value, or a thrown error
message. -/
inductive HandlerOutcome where
  | ok (result : String)
  | thrown (message : String)
deriving DecidableEq, Repr

/-- Embedding of `AgentOrchestrator.processAgentTask`: first calls
`updateTaskStatus(taskId, 'running')` — with no check of
`approval_required` or `approved_by` — then runs the handler and reports
`completed` with the result, or catches the exception and reports `failed`
with its message.  Returns the task state after the initial `running`
update together with the final state. -/
def processAgentTask (t : AgentTask) (handler : HandlerOutcome)
    (startTime finishTime : Nat) : AgentTask × AgentTask :=
  let afterRunning := updateTaskStatus t .running none none startTime
  match handler with
  | .ok r =>
      (afterRunning, updateTaskStatus afterRunning .completed (some r) none finishTime)
  | .thrown m =>
      (afterRunning, updateTaskStatus afterRunning .failed none (some m) finishTime)

/-- The `{ data, error }` shape returned by the store read in
`getTaskStatus` (`supabase.from('agent_tasks').select('*').eq('id', id).single()`). -/
structure StoreResult where
  data : Option AgentTask
  error : Option String
deriving DecidableEq, Repr

/-- The `.single()` store read underlying `getTaskStatus`: an empty result
set is reported through the `error` channel, a unique row through `data`. -/
def storeLookup (store : List AgentTask) (taskId : String) : StoreResult :=
  match store.find? (fun t => t.id = taskId) with
  | some t => { data := some t, error := none }
  | none => { data := none, error := some "PGRST116: no rows returned" }

/-- The body of `AgentOrchestrator.getTaskStatus` applied to the store
response: `if (error || !data) return null; return data as AgentTask`.
Total — every path returns a value, never a thrown exception. -/
def getTaskStatusRaw (res : StoreResult) : Option AgentTask :=
  if res.error.isSome || res.data.isNone then none else res.data

/-- Embedding of `AgentOrchestrator.getTaskStatus` over a modelled task store. -/
def getTaskStatus (store : List AgentTask) (taskId : String) : Option AgentTask :=
  getTaskStatusRaw (storeLookup store taskId)

/-- One observation made by the polling loop of
`WorkflowEngine.waitForTaskCompletion`: the loop either returns the task's
result, throws, or sleeps and polls again. -/
inductive PollCheck where
  | finished (result : Option String)
  | keepWaiting
  | raises (message : String)
deriving DecidableEq, Repr

/-- The body of one iteration of `WorkflowEngine.waitForTaskCompletion`:
a missing task throws; `completed` returns the result; `failed` and
`cancelled` throw; `pending` throws `'Task requires approval'` when
`task.approval_required && !task.approved_by`, otherwise keeps polling,
as does `running`. -/
def waitPoll (taskId : String) (task : Option AgentTask) : PollCheck :=
  match task with
  | none => .raises ("Task " ++ taskId ++ " not found")
  | some t =>
    match t.status with
    | .completed => .finished t.result
    | .failed => .raises ("Task failed: " ++ t.error.getD "undefined")
    | .cancelled => .raises "Task was cancelled"
    | .pending =>
        if t.approval_required && t.approved_by.isNone then
          .raises "Task requires approval"
        else
          .keepWaiting
    | .running => .keepWaiting

end Orchestrator

namespace Workflow

/-- The fields of a workflow step that `processWorkflowSteps` consults:
its id, its dependency step-ids, and its `continue_on_failure` flag. -/
structure WStep where
  id : String
  dependencies : List String
  continue_on_failure : Bool
deriving DecidableEq, Repr

/-- Terminal outcome of the agent task created for one step-execution
attempt: `waitForTaskCompletion` either returns a result or throws with a
message (task failure, cancellation, approval block, or timeout). -/
inductive StepOutcome where
  | success (result : String)
  | failure (message : String)
deriving DecidableEq, Repr

/-- Embedding of `WorkflowExecutionContext`.  The JS `Set`s become lists
queried by membership.  `executed` is the observable list of step ids for
which `executeStep` created an agent task (each attempt creates a fresh
task via `createTask`); its length indexes the outcome oracle, since each
attempt's task is new and resolves independently. -/
structure WorkflowExecutionContext where
  steps : List WStep
  completedSteps : List String
  failedSteps : List String
  stepResults : List (String × String)
  currentStepIndex : Nat
  executed : List String
deriving DecidableEq, Repr

/-- Embedding of `WorkflowEngine.checkStepDependencies`: true when every declared
dependency id is in `completedSteps` (vacuously true when there are
none). -/
def checkStepDependencies (step : WStep) (ctx : WorkflowExecutionContext) : Bool :=
  step.dependencies.all (fun d => ctx.completedSteps.contains d)

/-- The loop body of `WorkflowEngine.processWorkflowSteps` over the
remaining steps, with `i` the index of the head step.  `oracle n` is the
terminal outcome of the `n`-th agent task created in this run.  Mirrors
the source: set `currentStepIndex := i`; skip when dependencies are unmet;
otherwise execute — on success record the result and add the id to
`completedSteps`; on failure add the id to `failedSteps`, then continue
when `continue_on_failure` is set and otherwise abort the run by throwing
`'Workflow step <id> failed: <message>'`.  The thrown message is returned
alongside the mutated context (the JS context object is mutated in place
before the throw). -/
def processStepsFrom (oracle : Nat → StepOutcome) :
    List WStep → Nat → WorkflowExecutionContext →
    WorkflowExecutionContext × Option String
  | [], _, ctx => (ctx, none)
  | step :: rest, i, ctx =>
    let ctx := { ctx with currentStepIndex := i }
    if checkStepDependencies step ctx then
      match oracle ctx.executed.length with
      | .success r =>
          let ctx := { ctx with
            executed := ctx.executed ++ [step.id]
            stepResults := ctx.stepResults ++ [(step.id, r)]
            completedSteps := ctx.completedSteps ++ [step.id] }
          processStepsFrom oracle rest (i + 1) ctx
      | .failure m =>
          let ctx := { ctx with
            executed := ctx.executed ++ [step.id]
            failedSteps := ctx.failedSteps ++ [step.id] }
          if step.continue_on_failure then
            processStepsFrom oracle rest (i + 1) ctx
          else
            (ctx, some ("Workflow step " ++ step.id ++ " failed: " ++ m))
    else
      processStepsFrom oracle rest (i + 1) ctx

/-- Embedding of `WorkflowEngine.processWorkflowSteps`: the `for` loop starts at
`i = 0` over `context.steps` — the stored `currentStepIndex` is written,
never read, by the loop. -/
def processWorkflowSteps (oracle : Nat → StepOutcome)
    (ctx : WorkflowExecutionContext) : WorkflowExecutionContext × Option String :=
  processStepsFrom oracle ctx.steps 0 ctx

/-- The run context built at the top of `WorkflowEngine.executeWorkflow`:
empty completed/failed sets, empty result map, `currentStepIndex := 0`. -/
def freshContext (steps : List WStep) : WorkflowExecutionContext :=
  { steps := steps
    completedSteps := []
    failedSteps := []
    stepResults := []
    currentStepIndex := 0
    executed := [] }

/-- Status of a workflow run record. -/
inductive RunStatus where
  | running
  | paused
  | completed
  | failed (error : String)
  | cancelled
deriving DecidableEq, Repr

/-- Embedding of `WorkflowEngine.executeWorkflow`: builds a fresh context, processes
the steps, and marks the run `completed`, or `failed` with the caught
error's message. -/
def executeWorkflow (oracle : Nat → StepOutcome) (steps : List WStep) :
    RunStatus × WorkflowExecutionContext :=
  let r := processWorkflowSteps oracle (freshContext steps)
  match r.2 with
  | none => (.completed, r.1)
  | some e => (.failed e, r.1)

/-- Embedding of `WorkflowEngine.resumeWorkflow` on a live context: after setting the
run's stored status back to `running` it re-invokes
`processWorkflowSteps(context)` on the context as it stands. -/
def resumeWorkflow (oracle : Nat → StepOutcome)
    (ctx : WorkflowExecutionContext) : WorkflowExecutionContext × Option String :=
  processWorkflowSteps oracle ctx

end Workflow

open Orchestrator Workflow

/-- A concrete approval-gated task creation request. -/
def approvalSpec : CreateTaskSpec :=
  { tenant_id := "tenant1"
    user_id := "user1"
    agent_type := .content
    task_type := "generate"
    payload := "payload"
    priority := 1
    approval_required := true }

/-- A concrete task already in the terminal status `completed`. -/
def doneTask : AgentTask :=
  { id := "t-done"
    tenant_id := "tenant1"
    user_id := "user1"
    agent_type := .content
    task_type := "generate"
    payload := "payload"
    priority := 0
    status := .completed
    created_at := 0
    started_at := some 1
    completed_at := some 2
    result := some "res"
    approval_required := false }

/-- A concrete freshly created `pending` task (no timestamps beyond
`created_at`). -/
def pendingTask : AgentTask :=
  { id := "t-pending"
    tenant_id := "tenant1"
    user_id := "user1"
    agent_type := .content
    task_type := "generate"
    payload := "payload"
    priority := 0
    status := .pending
    created_at := 0
    approval_required := false }

/-- A concrete `pending` task that requires approval and has no approver
recorded. -/
def blockedTask : AgentTask :=
  { id := "t-blocked"
    tenant_id := "tenant1"
    user_id := "user1"
    agent_type := .content
    task_type := "generate"
    payload := "payload"
    priority := 1
    status := .pending
    created_at := 0
    approval_required := true }

/-- C1.  The claim says a task with `approval_required = true` and no
`approved_by` never reaches status `running`.  The code violates it: the
task is created `pending`, unapproved and approval-required, `createTask`
enqueues its job unconditionally, and `processAgentTask` immediately calls
`updateTaskStatus(taskId, 'running')` with no approval check, so the very
task the claim protects is observed in status `running` while
`approval_required = true` and `approved_by = none`. -/
theorem c1_unapproved_task_reaches_running :
    ((Orchestrator.createTask approvalSpec "task1" 0).1.status = .pending ∧
      (Orchestrator.createTask approvalSpec "task1" 0).1.approval_required = true ∧
      (Orchestrator.createTask approvalSpec "task1" 0).1.approved_by = none) ∧
    (Orchestrator.createTask approvalSpec "task1" 0).2.taskId = "task1" ∧
    ((processAgentTask (Orchestrator.createTask approvalSpec "task1" 0).1
        (.ok "res") 1 2).1.status = .running ∧
      (processAgentTask (Orchestrator.createTask approvalSpec "task1" 0).1
        (.ok "res") 1 2).1.approval_required = true ∧
      (processAgentTask (Orchestrator.createTask approvalSpec "task1" 0).1
        (.ok "res") 1 2).1.approved_by = none) := by
  decide

/-- C2, counterexample.  The claim says a task in a terminal status never
changes status under `updateTaskStatus`; but `updateTaskStatus` applies
the requested status unconditionally, so a `completed` task moves to
`running`. -/
theorem c2_terminal_status_escapes :
    doneTask.status = .completed ∧
    (updateTaskStatus doneTask .running none none 20).status = .running := by
  decide

/-- C2, amended.  `updateTaskStatus` consults only the *new* status when
building its update: for every task (terminal or not) and every requested
status, the updated record's status is exactly the requested one — the
state machine's terminal states are not enforced anywhere in the code. -/
theorem c2_updateTaskStatus_unconditional (t : AgentTask) (s : TaskStatus)
    (result error : Option String) (now : Nat) :
    (updateTaskStatus t s result error now).status = s := by
  cases s <;> rfl

/-- C5, counterexample.  The claim says no engine operation raises an
error upon observing a `pending`, approval-required, unapproved task; but
each poll of `WorkflowEngine.waitForTaskCompletion` throws
`'Task requires approval'` on exactly that observation. -/
theorem c5_wait_raises_on_approval_block :
    waitPoll "t-blocked" (some blockedTask) = .raises "Task requires approval" := by
  decide

/-- C5, amended.  The orchestrator's own reads and updates treat the
approval-blocked task as an ordinary record, but the workflow engine does
not: every `waitForTaskCompletion` poll that observes a `pending` task
with `approval_required = true` and `approved_by = null` throws
`'Task requires approval'`, failing the observing workflow step. -/
theorem c5_wait_poll_raises (taskId : String) (t : AgentTask)
    (hs : t.status = .pending) (ha : t.approval_required = true)
    (hb : t.approved_by = none) :
    waitPoll taskId (some t) = .raises "Task requires approval" := by
  simp [waitPoll, hs, ha, hb]

/-- Witness for `c5_wait_poll_raises` at the concrete blocked task. -/
theorem c5_wait_poll_raises_witness :
    waitPoll "t-blocked" (some blockedTask) = .raises "Task requires approval" :=
  c5_wait_poll_raises "t-blocked" blockedTask rfl rfl rfl

/-- C6, counterexample.  The claim says `completed_at` is set exactly when
the status is terminal (`completed`/`failed`/`cancelled`); but
`updateTaskStatus` sets `completed_at` only for `completed` and `failed`,
so a task cancelled via `updateTaskStatus` is terminal with
`completed_at` still unset. -/
theorem c6_cancelled_without_completed_at :
    (updateTaskStatus pendingTask .cancelled none none 5).status = .cancelled ∧
    (updateTaskStatus pendingTask .cancelled none none 5).completed_at = none := by
  decide

/-- C6, amended.  `updateTaskStatus` sets `completed_at := now` exactly
when the requested status is `completed` or `failed`, and leaves it
untouched otherwise — so a `cancelled` task keeps `completed_at` unset,
and a terminal task later reset to a non-terminal status keeps its old
`completed_at`; the if-and-only-if with terminality fails in both
directions. -/
theorem c6_completed_at_on_completed_or_failed (t : AgentTask) (s : TaskStatus)
    (result error : Option String) (now : Nat) :
    (updateTaskStatus t s result error now).completed_at =
      if s = .completed ∨ s = .failed then some now else t.completed_at := by
  cases s <;> simp [updateTaskStatus]

/-- C9.  `createTask` enqueues the job with
`delay: task.priority === 0 ? 0 : task.priority * 1000` — zero delay for
priority `0` and `priority * 1000` milliseconds otherwise, derived from
the task's priority field alone. -/
theorem c9_enqueue_delay_from_priority (spec : CreateTaskSpec)
    (taskId : String) (now : Nat) :
    (spec.priority = 0 → (Orchestrator.createTask spec taskId now).2.delay = 0) ∧
    (spec.priority ≠ 0 →
      (Orchestrator.createTask spec taskId now).2.delay = spec.priority * 1000) := by
  constructor <;> intro h <;> simp [Orchestrator.createTask, h]

/-- Witness for `c9_enqueue_delay_from_priority` at the concrete
approval-gated request, whose priority is `1`. -/
theorem c9_enqueue_delay_witness :
    approvalSpec.priority ≠ 0 ∧
    (Orchestrator.createTask approvalSpec "task1" 0).2.delay = approvalSpec.priority * 1000 :=
  ⟨by decide, (c9_enqueue_delay_from_priority approvalSpec "task1" 0).2 (by decide)⟩

/-- Scenario-C step with no dependencies. -/
def stepA : WStep := { id := "A", dependencies := [], continue_on_failure := false }

/-- Scenario-C step depending on step `A`. -/
def stepB : WStep := { id := "B", dependencies := ["A"], continue_on_failure := false }

/-- Scenario-C step whose dependency `Z` is not the id of any declared
step. -/
def stepC : WStep := { id := "C", dependencies := ["Z"], continue_on_failure := false }

/-- A step with no dependencies whose failure aborts the run
(`continue_on_failure = false`). -/
def failStep : WStep := { id := "F", dependencies := [], continue_on_failure := false }

/-- A retryable step: no dependencies, `continue_on_failure = true`. -/
def retryStep : WStep := { id := "D", dependencies := [], continue_on_failure := true }

/-- An outcome oracle under which every created task completes. -/
def alwaysSuccess : Nat → StepOutcome := fun _ => .success "r"

/-- An outcome oracle under which every created task fails. -/
def failOracle : Nat → StepOutcome := fun _ => .failure "boom"

/-- An outcome oracle whose first task succeeds and whose later tasks
fail. -/
def flipOracle : Nat → StepOutcome :=
  fun n => if n = 0 then .success "r" else .failure "boom"

/-- Disjointness invariant of `processStepsFrom`: starting from a context
whose completed and failed sets are disjoint and mention none of the
remaining steps' ids, and with pairwise-distinct remaining ids, the
resulting context's completed and failed sets are disjoint. -/
theorem processStepsFrom_disjoint (oracle : Nat → StepOutcome) :
    ∀ (steps : List WStep) (i : Nat) (ctx : WorkflowExecutionContext),
      (∀ x ∈ ctx.completedSteps, x ∉ ctx.failedSteps) →
      (∀ s ∈ steps, s.id ∉ ctx.completedSteps ∧ s.id ∉ ctx.failedSteps) →
      (steps.map WStep.id).Nodup →
      ∀ x ∈ (processStepsFrom oracle steps i ctx).1.completedSteps,
        x ∉ (processStepsFrom oracle steps i ctx).1.failedSteps := by
  intro steps
  induction steps with
  | nil =>
      intro i ctx hdisj _ _
      simpa [processStepsFrom] using hdisj
  | cons step rest ih =>
      intro i ctx hdisj hfresh hnodup
      have hstep : step.id ∉ ctx.completedSteps ∧ step.id ∉ ctx.failedSteps :=
        hfresh step (List.mem_cons_self step rest)
      have hrest : ∀ s ∈ rest, s.id ∉ ctx.completedSteps ∧ s.id ∉ ctx.failedSteps :=
        fun s hs => hfresh s (List.mem_cons_of_mem step hs)
      have hne : ∀ s ∈ rest, s.id ≠ step.id := by
        intro s hs heq
        have : step.id ∈ rest.map WStep.id := heq ▸ List.mem_map_of_mem WStep.id hs
        exact (List.nodup_cons.mp (by simpa using hnodup)).1 this
      have hnodup' : (rest.map WStep.id).Nodup :=
        (List.nodup_cons.mp (by simpa using hnodup)).2
      simp only [processStepsFrom]
      by_cases hdep : checkStepDependencies step { ctx with currentStepIndex := i } = true
      · rw [if_pos hdep]
        rcases hout : oracle ctx.executed.length with r | m
        · -- the step's task completes: its id joins completedSteps
          apply ih
          · intro x hx
            rcases List.mem_append.mp hx with hx | hx
            · exact hdisj x hx
            · rw [List.mem_singleton.mp hx]
              exact hstep.2
          · intro s hs
            refine ⟨?_, (hrest s hs).2⟩
            intro hmem
            rcases List.mem_append.mp hmem with hmem | hmem
            · exact (hrest s hs).1 hmem
            · exact hne s hs (List.mem_singleton.mp hmem)
          · exact hnodup'
        · dsimp only
          by_cases hcont : step.continue_on_failure = true
          · -- the step's task fails but the run continues
            rw [if_pos hcont]
            apply ih
            · intro x hx hmem
              rcases List.mem_append.mp hmem with hmem | hmem
              · exact hdisj x hx hmem
              · exact hstep.1 (List.mem_singleton.mp hmem ▸ hx)
            · intro s hs
              refine ⟨(hrest s hs).1, ?_⟩
              intro hmem
              rcases List.mem_append.mp hmem with hmem | hmem
              · exact (hrest s hs).2 hmem
              · exact hne s hs (List.mem_singleton.mp hmem)
            · exact hnodup'
          · -- the step's task fails and the run aborts
            rw [if_neg hcont]
            intro x hx hmem
            rcases List.mem_append.mp hmem with hmem | hmem
            · exact hdisj x hx hmem
            · exact hstep.1 (List.mem_singleton.mp hmem ▸ hx)
      · rw [if_neg hdep]
        exact ih (i + 1) _ hdisj hrest hnodup'

/-- C3, counterexample.  The claim says `completedSteps ∩ failedSteps = ∅`
at every point, including execution resumed via `resumeWorkflow`.  But
`resumeWorkflow` re-runs `processWorkflowSteps` from index 0 and
`checkStepDependencies` never excludes already-completed steps, so a step
that completed in the first pass is re-executed on resume as a fresh task;
when that new task fails, the step's id lands in `failedSteps` while still
in `completedSteps`. -/
theorem c3_resume_breaks_disjointness :
    "D" ∈ (resumeWorkflow flipOracle
        (processWorkflowSteps flipOracle (freshContext [retryStep])).1).1.completedSteps ∧
    "D" ∈ (resumeWorkflow flipOracle
        (processWorkflowSteps flipOracle (freshContext [retryStep])).1).1.failedSteps := by
  decide

/-- C3, amended.  Within a single execution pass over steps with
pairwise-distinct ids, starting from the fresh run context, the completed
and failed sets are disjoint at every point: the state after any processed
prefix of the step list has `completedSteps ∩ failedSteps = ∅`.  The
original claim's extension to resumed execution fails
(`c3_resume_breaks_disjointness`), since resuming re-executes completed
steps. -/
theorem c3_single_pass_disjoint (oracle : Nat → StepOutcome)
    (steps q rest : List WStep) (hsplit : steps = q ++ rest)
    (hnodup : (steps.map WStep.id).Nodup) :
    ∀ x ∈ (processStepsFrom oracle q 0 (freshContext steps)).1.completedSteps,
      x ∉ (processStepsFrom oracle q 0 (freshContext steps)).1.failedSteps := by
  apply processStepsFrom_disjoint
  · intro x hx
    simp [freshContext] at hx
  · intro s _
    simp [freshContext]
  · have h : ((q ++ rest).map WStep.id).Nodup := hsplit ▸ hnodup
    rw [List.map_append] at h
    exact h.of_append_left

/-- Witness for `c3_single_pass_disjoint`: the state after processing the
one-step prefix of the two-step list `[stepA, stepB]`. -/
theorem c3_single_pass_disjoint_witness :
    ([stepA, stepB] = [stepA] ++ [stepB] ∧ ([stepA, stepB].map WStep.id).Nodup) ∧
    ∀ x ∈ (processStepsFrom flipOracle [stepA] 0
        (freshContext [stepA, stepB])).1.completedSteps,
      x ∉ (processStepsFrom flipOracle [stepA] 0
        (freshContext [stepA, stepB])).1.failedSteps :=
  ⟨⟨rfl, by decide⟩,
    c3_single_pass_disjoint flipOracle [stepA, stepB] [stepA] [stepB] rfl (by decide)⟩

/-- C4.  The claim (and the source's own comment `// Resume from current
step`) says `resumeWorkflow` resumes from the context's
`currentStepIndex`, never re-executing lower-indexed steps.  But
`processWorkflowSteps` runs `for (let i = 0; ...)` — it writes
`currentStepIndex` and never reads it — so resuming a context with
`currentStepIndex = 1` re-executes the step at index 0, creating a second
task for it. -/
theorem c4_resume_restarts_from_zero :
    ({ steps := [stepA, stepB]
       completedSteps := ["A"]
       failedSteps := []
       stepResults := [("A", "r")]
       currentStepIndex := 1
       executed := ["A"] } : WorkflowExecutionContext).currentStepIndex = 1 ∧
    (resumeWorkflow alwaysSuccess
      { steps := [stepA, stepB]
        completedSteps := ["A"]
        failedSteps := []
        stepResults := [("A", "r")]
        currentStepIndex := 1
        executed := ["A"] }).1.executed = ["A", "A", "B"] := by
  decide

/-- C7.  When a reached step's task fails: the step's id is appended to
`failedSteps` (and the step's task was created — `executed` grows), the
completed set is untouched; with `continue_on_failure = false` the run
aborts immediately with the thrown message `'Workflow step <id> failed:
<original error>'` (the originating error embedded) and no later step is
processed, while with `continue_on_failure = true` processing continues
with the next step; and an aborting failure makes `executeWorkflow` mark
the run `failed` with that error. -/
theorem c7_step_failure_policy (f : WStep) (rest : List WStep) (i : Nat)
    (ctx : WorkflowExecutionContext) (oracle : Nat → StepOutcome) (m : String)
    (hdep : checkStepDependencies f { ctx with currentStepIndex := i } = true)
    (hout : oracle ctx.executed.length = .failure m) :
    (f.continue_on_failure = false →
      processStepsFrom oracle (f :: rest) i ctx =
        ({ ctx with currentStepIndex := i,
                    executed := ctx.executed ++ [f.id],
                    failedSteps := ctx.failedSteps ++ [f.id] },
         some ("Workflow step " ++ f.id ++ " failed: " ++ m))) ∧
    (f.continue_on_failure = true →
      processStepsFrom oracle (f :: rest) i ctx =
        processStepsFrom oracle rest (i + 1)
          { ctx with currentStepIndex := i,
                     executed := ctx.executed ++ [f.id],
                     failedSteps := ctx.failedSteps ++ [f.id] }) ∧
    (∀ (steps : List WStep) (e : String),
      (processWorkflowSteps oracle (freshContext steps)).2 = some e →
      (executeWorkflow oracle steps).1 = .failed e) := by
  refine ⟨?_, ?_, ?_⟩
  · intro hflag
    simp [processStepsFrom, hdep, hout, hflag]
  · intro hflag
    simp [processStepsFrom, hdep, hout, hflag]
  · intro steps e he
    simp [executeWorkflow, he]

/-- Witness for `c7_step_failure_policy`: a dependency-free aborting step
ahead of `stepB`, every task failing. -/
theorem c7_step_failure_policy_witness :
    processStepsFrom failOracle [failStep, stepB] 0 (freshContext [failStep, stepB]) =
      ({ freshContext [failStep, stepB] with
           currentStepIndex := 0,
           executed := (freshContext [failStep, stepB]).executed ++ [failStep.id],
           failedSteps := (freshContext [failStep, stepB]).failedSteps ++ [failStep.id] },
       some ("Workflow step " ++ failStep.id ++ " failed: " ++ "boom")) :=
  (c7_step_failure_policy failStep [stepB] 0 (freshContext [failStep, stepB])
      failOracle "boom" (by decide) rfl).1 rfl

/-- C8.  For the workflow `[A (no deps), B (deps [A]), C (deps [Z])]` with
`Z` undeclared: under every outcome oracle, step `C` is never executed (no
task is ever created for it); and when `A` and `B` complete successfully
the run is marked `completed` with exactly `A` and `B` executed and
completed. -/
theorem c8_dangling_dependency_skipped :
    (∀ oracle : Nat → StepOutcome,
        "C" ∉ (executeWorkflow oracle [stepA, stepB, stepC]).2.executed) ∧
    (executeWorkflow alwaysSuccess [stepA, stepB, stepC]).1 = .completed ∧
    (executeWorkflow alwaysSuccess [stepA, stepB, stepC]).2.executed = ["A", "B"] ∧
    (executeWorkflow alwaysSuccess [stepA, stepB, stepC]).2.completedSteps = ["A", "B"] := by
  refine ⟨?_, by decide, by decide, by decide⟩
  intro oracle
  rcases h0 : oracle 0 with r0 | m0
  · rcases h1 : oracle 1 with r1 | m1
    · simp [executeWorkflow, processWorkflowSteps, processStepsFrom, freshContext,
            checkStepDependencies, stepA, stepB, stepC, h0, h1]
    · simp [executeWorkflow, processWorkflowSteps, processStepsFrom, freshContext,
            checkStepDependencies, stepA, stepB, stepC, h0, h1]
  · simp [executeWorkflow, processWorkflowSteps, processStepsFrom, freshContext,
          checkStepDependencies, stepA, stepB, stepC, h0]

/-- C10.  `getTaskStatus` is a total function into `Option`: it returns
`none` whenever the store read reports an error or carries no row (in
particular for an unknown task id), and returns the stored record exactly
when the read succeeds with data — no path throws. -/
theorem c10_getTaskStatus_total :
    (∀ res : StoreResult, res.error.isSome ∨ res.data.isNone →
        getTaskStatusRaw res = none) ∧
    (∀ (res : StoreResult) (t : AgentTask), res.error = none → res.data = some t →
        getTaskStatusRaw res = some t) ∧
    (∀ (store : List AgentTask) (taskId : String),
        (∀ t ∈ store, t.id ≠ taskId) → getTaskStatus store taskId = none) ∧
    (∀ (store : List AgentTask) (taskId : String) (t : AgentTask),
        store.find? (fun u => u.id = taskId) = some t →
        getTaskStatus store taskId = some t) := by
  refine ⟨?_, ?_, ?_, ?_⟩
  · intro res h
    rcases h with h | h <;> simp [getTaskStatusRaw, h]
  · intro res t he hd
    simp [getTaskStatusRaw, he, hd]
  · intro store taskId h
    have hfind : store.find? (fun u => u.id = taskId) = none := by
      rw [List.find?_eq_none]
      intro t ht
      simpa using h t ht
    simp [getTaskStatus, storeLookup, hfind, getTaskStatusRaw]
  · intro store taskId t hfind
    simp [getTaskStatus, storeLookup, hfind, getTaskStatusRaw]

/-- Witness for `c10_getTaskStatus_total`: looking up an id absent from a
concrete one-task store returns `none`. -/
theorem c10_getTaskStatus_total_witness :
    (∀ t ∈ [doneTask], t.id ≠ "no-such-task") ∧
    getTaskStatus [doneTask] "no-such-task" = none :=
  ⟨by decide, c10_getTaskStatus_total.2.2.1 [doneTask] "no-such-task" (by decide)⟩
